import Mathlib

/-!
Shallow embedding of the NBA analytics backend (`src/backend/server.js`).

The backend keeps three document collections (players, teams, games) and
exposes read routes plus three administrative "populate" (refresh)
operations that pull data from an upstream provider, normalize it, and
replace the corresponding collection.

Modelling conventions:
* A stored document is a structure whose fields mirror the mongoose
  schema; fields the upstream may omit are `Option String`.  The
  `lastUpdated` schema field defaults to `Date.now` at insertion time;
  we model the clock as an explicit `now : Nat` parameter to each
  populate operation.
* The upstream provider is a fixture `String → Except String Payload`
  mapping an endpoint path to either the unwrapped payload
  (`response.data.response` after the `status === 'success'` check in
  `fetchFromRapidAPI`) or an error message (`error.message`).
* JavaScript `a || b` on strings is truthy choice: `undefined`, `null`
  and the empty string select `b`.  We model optional string fields as
  `Option String` and truthiness explicitly (`jsOr`, `jsOrStr`).
* Mongo `new Date(game.date)` parsing is order-irrelevant for every
  claim considered; the stored `date` keeps the raw upstream string.
* Route handlers are pure functions from the database state (and the
  fixture, for populate routes) to a new state and a response record
  mirroring the JSON envelope (`status`, `success`, `message`, `count`,
  `data` / `error`).
-/

/-- JavaScript truthy choice `a || b` on two possibly-absent strings:
`undefined`/`null`/`""` are falsy. -/
def jsOr (a b : Option String) : Option String :=
  match a with
  | some s => if s = "" then b else some s
  | none => b

/-- JavaScript truthy choice `a || b` where `b` is a definite string
(e.g. `player.team?.name || 'Free Agent'`). -/
def jsOrStr (a : Option String) (b : String) : String :=
  match a with
  | some s => if s = "" then b else s
  | none => b

/- ============================ STORED DOCUMENTS ======================== -/

/-- `playerSchema`: a stored player document.  `imageUrl` is filled from
the upstream `headshot` field; `lastUpdated` defaults to the insertion
time. -/
structure Player where
  apiPlayerId : Option String
  name : Option String
  displayName : Option String
  shortName : Option String
  team : Option String
  teamId : Option String
  position : Option String
  jersey : Option String
  image : Option String
  imageUrl : Option String
  points : Nat
  assists : Nat
  rebounds : Nat
  lastUpdated : Nat
deriving DecidableEq, Repr

/-- `teamSchema`: a stored team document.  `abbrv` models the source
field `abbrev` (a Lean keyword). -/
structure Team where
  apiTeamId : Option String
  name : Option String
  shortName : Option String
  abbrv : Option String
  logo : Option String
  logoDark : Option String
  href : Option String
  conference : Option String
  division : Option String
  wins : Nat
  losses : Nat
  lastUpdated : Nat
deriving DecidableEq, Repr

/-- Nested team snapshot inside a stored game (`homeTeam` / `awayTeam`):
a frozen box-score view, not a reference to the Team collection. -/
structure GameTeamSnap where
  id : Option String
  name : Option String
  abbrv : Option String
  logo : Option String
  score : Nat
deriving DecidableEq, Repr

/-- `gameSchema`: a stored game document.  `date` keeps the raw upstream
string (`new Date(game.date)` is modelled as the identity on it). -/
structure Game where
  apiGameId : Option String
  date : Option String
  dateFormatted : Option String
  status : Option String
  homeTeam : GameTeamSnap
  awayTeam : GameTeamSnap
  venue : Option String
  lastUpdated : Nat
deriving DecidableEq, Repr

/-- The document store: three independent collections. -/
structure DB where
  players : List Player
  teams : List Team
  games : List Game
deriving DecidableEq, Repr

/- ============================ UPSTREAM PAYLOADS ======================= -/

/-- Upstream team record as returned by a division endpoint
(`data.teamList` elements). -/
structure ApiTeam where
  id : Option String
  name : Option String
  shortName : Option String
  abbrv : Option String
  logo : Option String
  logoDark : Option String
  href : Option String
deriving DecidableEq, Repr

/-- Payload of a division endpoint: `{ teamList }`, possibly absent. -/
structure TeamsPayload where
  teamList : Option (List ApiTeam)
deriving DecidableEq, Repr

/-- Upstream `player.team` sub-object (`{ id, name }`). -/
structure ApiTeamRef where
  id : Option String
  name : Option String
deriving DecidableEq, Repr

/-- Upstream player record (`data.playerList` elements). -/
structure ApiPlayer where
  id : Option String
  name : Option String
  displayName : Option String
  shortName : Option String
  team : Option ApiTeamRef
  position : Option String
  jersey : Option String
  image : Option String
  headshot : Option String
deriving DecidableEq, Repr

/-- Payload of a players endpoint: `{ playerList }`, possibly absent. -/
structure PlayersPayload where
  playerList : Option (List ApiPlayer)
deriving DecidableEq, Repr

/-- Upstream `game.homeTeam` / `game.awayTeam` sub-object. -/
structure ApiGameTeam where
  id : Option String
  name : Option String
  abbrv : Option String
  logo : Option String
  score : Option Nat
deriving DecidableEq, Repr

/-- Upstream game record (`data.gameList` elements). -/
structure ApiGame where
  id : Option String
  date : Option String
  dateFormatted : Option String
  status : Option String
  homeTeam : Option ApiGameTeam
  awayTeam : Option ApiGameTeam
  venue : Option String
deriving DecidableEq, Repr

/-- Payload of a games endpoint: `{ gameList }`, possibly absent. -/
structure GamesPayload where
  gameList : Option (List ApiGame)
deriving DecidableEq, Repr

/- ============================ RESPONSE ENVELOPES ====================== -/

/-- JSON envelope of a populate route: HTTP status plus the fields of
`res.json({...})` (`breakdown` handled separately for teams). -/
structure PopResponse where
  status : Nat
  success : Bool
  message : String
  count : Option Nat
  errorMsg : Option String
deriving DecidableEq, Repr

/-- Per-division count breakdown returned by populate-teams. -/
structure TeamsBreakdown where
  atlantic : Nat
  central : Nat
  southeast : Nat
  northwest : Nat
  pacific : Nat
  southwest : Nat
deriving DecidableEq, Repr

/-- JSON envelope of the populate-teams route. -/
structure TeamsResponse where
  status : Nat
  success : Bool
  message : String
  count : Option Nat
  breakdown : Option TeamsBreakdown
deriving DecidableEq, Repr

/- ============================ POPULATE TEAMS ========================== -/

/-- One entry of the fixed `divisions` array in the populate-teams
handler. -/
structure Division where
  name : String
  endpoint : String
  conference : String
deriving DecidableEq, Repr

/-- The fixed ordered list of the 6 NBA divisions with their dedicated
endpoints and conferences, exactly as in the handler. -/
def divisions : List Division :=
  [ ⟨"Atlantic", "/nba-atlantic-team-list", "East"⟩,
    ⟨"Central", "/nba-central-team-list", "East"⟩,
    ⟨"Southeast", "/nba-southeast-team-list", "East"⟩,
    ⟨"Northwest", "/nba-northwest-team-list", "West"⟩,
    ⟨"Pacific", "/nba-pacific-team-list", "West"⟩,
    ⟨"Southwest", "/nba-southwest-team-list", "West"⟩ ]

/-- An upstream team tagged with the division it was fetched from
(`{...team, divisionName, conferenceName}`). -/
structure TaggedTeam where
  team : ApiTeam
  divisionName : String
  conferenceName : String
deriving DecidableEq, Repr

/-- Contribution of one division to the accumulator `allTeams`: on fetch
success with a present, non-empty `teamList`, its teams tagged with the
division; on fetch failure (logged and skipped) or an absent/empty list,
nothing. -/
def divFetch (fixture : String → Except String TeamsPayload) (d : Division) :
    List TaggedTeam :=
  match fixture d.endpoint with
  | .ok data =>
    match data.teamList with
    | some ts => if ts.length > 0 then ts.map (fun t => ⟨t, d.name, d.conference⟩) else []
    | none => []
  | .error _ => []

/-- The accumulator `allTeams` after the division loop: each division's
batch appended in order. -/
def collectTeams (fixture : String → Except String TeamsPayload) : List TaggedTeam :=
  (divisions.map (divFetch fixture)).flatten

/-- Normalization of a tagged team into a stored document
(`teamsToInsert` map): wins/losses zeroed, conference/division from the
tag, `lastUpdated` from the schema default at insertion time. -/
def normalizeTeam (now : Nat) (t : TaggedTeam) : Team :=
  { apiTeamId := t.team.id
    name := t.team.name
    shortName := t.team.shortName
    abbrv := t.team.abbrv
    logo := t.team.logo
    logoDark := t.team.logoDark
    href := t.team.href
    conference := some t.conferenceName
    division := some t.divisionName
    wins := 0
    losses := 0
    lastUpdated := now }

/-- `POST /api/admin/populate-teams`: fan-out over the 6 division
endpoints (partial-failure tolerant), then: empty accumulator fails with
404 and leaves the store untouched; otherwise the Team collection is
cleared and the normalized records inserted, and the response carries
the total count and per-division breakdown. -/
def populateTeams (fixture : String → Except String TeamsPayload) (now : Nat)
    (db : DB) : DB × TeamsResponse :=
  let allTeams := collectTeams fixture
  if allTeams.length = 0 then
    (db, ⟨404, false, "No teams found in API response", none, none⟩)
  else
    let teamsToInsert := allTeams.map (normalizeTeam now)
    ({ db with teams := teamsToInsert },
     ⟨200, true,
      "Successfully populated " ++ toString teamsToInsert.length ++
        " teams from all 6 divisions",
      some teamsToInsert.length,
      some ⟨(allTeams.filter (fun t => t.divisionName = "Atlantic")).length,
            (allTeams.filter (fun t => t.divisionName = "Central")).length,
            (allTeams.filter (fun t => t.divisionName = "Southeast")).length,
            (allTeams.filter (fun t => t.divisionName = "Northwest")).length,
            (allTeams.filter (fun t => t.divisionName = "Pacific")).length,
            (allTeams.filter (fun t => t.divisionName = "Southwest")).length⟩⟩)

/- ============================ POPULATE PLAYERS ======================== -/

/-- The try/catch chain of the populate-players handler: primary
endpoint `/players`, one fallback `/nba/players`; if both fail the
second error is kept. -/
def tryPlayersEndpoints (fixture : String → Except String PlayersPayload) :
    Except String PlayersPayload :=
  match fixture "/players" with
  | .ok d => .ok d
  | .error _ =>
    match fixture "/nba/players" with
    | .ok d => .ok d
    | .error e2 => .error e2

/-- Normalization of an upstream player into a stored document
(`playersToInsert` map): name falls back to display name, team name to
`'Free Agent'` (JavaScript truthiness), stats zeroed, `imageUrl` from
`headshot`, `lastUpdated` from the schema default at insertion time. -/
def normalizePlayer (now : Nat) (p : ApiPlayer) : Player :=
  { apiPlayerId := p.id
    name := jsOr p.name p.displayName
    displayName := p.displayName
    shortName := p.shortName
    team := some (jsOrStr (p.team.bind ApiTeamRef.name) "Free Agent")
    teamId := p.team.bind ApiTeamRef.id
    position := p.position
    jersey := p.jersey
    image := p.image
    imageUrl := p.headshot
    points := 0
    assists := 0
    rebounds := 0
    lastUpdated := now }

/-- `POST /api/admin/populate-players`: endpoint chain, then: absent or
empty `playerList` fails with 404 (store untouched); otherwise the
Player collection is cleared and the normalized records inserted. -/
def populatePlayers (fixture : String → Except String PlayersPayload) (now : Nat)
    (db : DB) : DB × PopResponse :=
  match tryPlayersEndpoints fixture with
  | .error e2 =>
    (db, ⟨404, false, "Players endpoint not found. Check API documentation.",
          none, some e2⟩)
  | .ok data =>
    match data.playerList with
    | none => (db, ⟨404, false, "No players found in API response", none, none⟩)
    | some l =>
      if l.length = 0 then
        (db, ⟨404, false, "No players found in API response", none, none⟩)
      else
        let playersToInsert := l.map (normalizePlayer now)
        ({ db with players := playersToInsert },
         ⟨200, true,
          "Successfully populated " ++ toString playersToInsert.length ++ " players",
          some playersToInsert.length, none⟩)

/- ============================ POPULATE GAMES ========================== -/

/-- The try/catch chain of the populate-games handler, instrumented with
the list of endpoints actually attempted: `/games`, then `/schedule`,
then `/games?date=<today>` where `today` is the ISO date portion of the
current date (`new Date().toISOString().split('T')[0]`, an explicit
parameter here).  Each endpoint is attempted only after the previous one
failed; on total failure the third error is kept. -/
def tryGamesEndpoints (fixture : String → Except String GamesPayload)
    (today : String) : List String × Except String GamesPayload :=
  match fixture "/games" with
  | .ok d => (["/games"], .ok d)
  | .error _ =>
    match fixture "/schedule" with
    | .ok d => (["/games", "/schedule"], .ok d)
    | .error _ =>
      match fixture ("/games?date=" ++ today) with
      | .ok d => (["/games", "/schedule", "/games?date=" ++ today], .ok d)
      | .error e3 => (["/games", "/schedule", "/games?date=" ++ today], .error e3)

/-- Normalization of an upstream game into a stored document
(`gamesToInsert` map): nested team snapshots default a missing score to
0 (`?.score || 0`), `lastUpdated` from the schema default. -/
def normalizeGame (now : Nat) (g : ApiGame) : Game :=
  { apiGameId := g.id
    date := g.date
    dateFormatted := g.dateFormatted
    status := g.status
    homeTeam := { id := g.homeTeam.bind ApiGameTeam.id
                  name := g.homeTeam.bind ApiGameTeam.name
                  abbrv := g.homeTeam.bind ApiGameTeam.abbrv
                  logo := g.homeTeam.bind ApiGameTeam.logo
                  score := ((g.homeTeam.bind ApiGameTeam.score).getD 0) }
    awayTeam := { id := g.awayTeam.bind ApiGameTeam.id
                  name := g.awayTeam.bind ApiGameTeam.name
                  abbrv := g.awayTeam.bind ApiGameTeam.abbrv
                  logo := g.awayTeam.bind ApiGameTeam.logo
                  score := ((g.awayTeam.bind ApiGameTeam.score).getD 0) }
    venue := g.venue
    lastUpdated := now }

/-- `POST /api/admin/populate-games`: endpoint chain; if all three fail,
404 carrying the last error.  An upstream success with an absent or
empty `gameList` is reported as success with count 0 and the store is
NOT touched (the early `return res.json` precedes `Game.deleteMany`).
Otherwise the Game collection is cleared and the normalized records
inserted. -/
def populateGames (fixture : String → Except String GamesPayload)
    (today : String) (now : Nat) (db : DB) : DB × PopResponse :=
  match (tryGamesEndpoints fixture today).2 with
  | .error e3 =>
    (db, ⟨404, false, "Games endpoint not found. Check API documentation.",
          none, some e3⟩)
  | .ok data =>
    match data.gameList with
    | none => (db, ⟨200, true, "No games found", some 0, none⟩)
    | some l =>
      if l.length = 0 then
        (db, ⟨200, true, "No games found", some 0, none⟩)
      else
        let gamesToInsert := l.map (normalizeGame now)
        ({ db with games := gamesToInsert },
         ⟨200, true,
          "Successfully populated " ++ toString gamesToInsert.length ++ " games",
          some gamesToInsert.length, none⟩)

/- ============================ QUERY SERVICE =========================== -/

/-- JSON envelope of a successful list-shaped read route:
`{ success: true, count, data }`. -/
structure ListResponse (α : Type) where
  success : Bool
  count : Nat
  data : List α
deriving DecidableEq, Repr

/-- JSON envelope of a get-by-id route. -/
structure GetResponse (α : Type) where
  status : Nat
  success : Bool
  message : Option String
  data : Option α
deriving DecidableEq, Repr

/-- Insertion into a list sorted by the boolean comparison `le`. -/
def insertSorted (le : α → α → Bool) (a : α) : List α → List α
  | [] => [a]
  | b :: bs => if le a b then a :: b :: bs else b :: insertSorted le a bs

/-- Insertion sort by the boolean comparison `le`; models the store's
`sort(...)` stage (the claims considered are order-independent). -/
def sortBy (le : α → α → Bool) : List α → List α
  | [] => []
  | a :: as => insertSorted le a (sortBy le as)

/-- Ascending order on optional strings (absent first), for the store's
`sort({name: 1})` / `sort({date: 1})` stages. -/
def optStrLe (a b : Option String) : Bool :=
  match a, b with
  | none, _ => true
  | some _, none => false
  | some x, some y => decide (x ≤ y)

/-- A document together with its store-assigned identifier (`_id`). -/
structure Stored (α : Type) where
  sid : String
  doc : α
deriving DecidableEq, Repr

/-- `Model.findById`: first document whose identifier matches. -/
def findById (coll : List (Stored α)) (i : String) : Option (Stored α) :=
  coll.find? (fun r => r.sid == i)

/-- `GET /api/players/:id`: the stored player, or a 404 envelope. -/
def getPlayerById (coll : List (Stored Player)) (i : String) : GetResponse Player :=
  match findById coll i with
  | none => ⟨404, false, some "Player not found", none⟩
  | some r => ⟨200, true, none, some r.doc⟩

/-- `GET /api/teams/:id`: the stored team, or a 404 envelope. -/
def getTeamById (coll : List (Stored Team)) (i : String) : GetResponse Team :=
  match findById coll i with
  | none => ⟨404, false, some "Team not found", none⟩
  | some r => ⟨200, true, none, some r.doc⟩

/- ---- the Mongo `$regex ... $options: 'i'` match used by player search.

The search route hands the raw path parameter to the store as a regular
expression.  We model the fragment of that regex language the claims
exercise: `'.'` matches any single character, any other character
matches itself case-insensitively (`$options: 'i'`); the pattern is
unanchored (it may match at any position).  Patterns using further
metacharacters (`*`, `+`, ...) are outside the model and outside every
theorem below, which quantify only over metacharacter-free queries. -/

/-- One-character pattern match: `'.'` is a wildcard, anything else is a
case-insensitive literal. -/
def charCI (p c : Char) : Bool := p = '.' || p.toLower = c.toLower

/-- Match the whole pattern at the start of the subject. -/
def matchHere : List Char → List Char → Bool
  | [], _ => true
  | _ :: _, [] => false
  | p :: ps, c :: cs => charCI p c && matchHere ps cs

/-- Unanchored regex search: the pattern matches at some position. -/
def regexFind (pat : List Char) : List Char → Bool
  | [] => matchHere pat []
  | c :: cs => matchHere pat (c :: cs) || regexFind pat cs

/-- Regex match against a possibly-absent document field (an absent
field never matches a `$regex` condition). -/
def regexFindOpt (pat : List Char) : Option String → Bool
  | some s => regexFind pat s.data
  | none => false

/-- `GET /api/players/search/:name`: documents whose `name` or
`displayName` matches the query as a case-insensitive regex, capped at
10 (`limit(10)`). -/
def searchPlayers (q : String) (db : DB) : ListResponse Player :=
  let players := (db.players.filter
    (fun p => regexFindOpt q.data p.name || regexFindOpt q.data p.displayName)).take 10
  ⟨true, players.length, players⟩

/-- `GET /api/players`: all players sorted by name ascending. -/
def getPlayers (db : DB) : ListResponse Player :=
  let players := sortBy (fun a b => optStrLe a.name b.name) db.players
  ⟨true, players.length, players⟩

/-- `GET /api/players/top/10`: players sorted by points descending,
capped at 10. -/
def getTopPlayers (db : DB) : ListResponse Player :=
  let players := (sortBy (fun a b => decide (b.points ≤ a.points)) db.players).take 10
  ⟨true, players.length, players⟩

/-- `GET /api/teams`: all teams sorted by name ascending. -/
def getTeams (db : DB) : ListResponse Team :=
  let teams := sortBy (fun a b => optStrLe a.name b.name) db.teams
  ⟨true, teams.length, teams⟩

/-- `GET /api/teams/random/10`: the result of the `$sample` aggregation
stage (a nondeterministic selection, taken here as a parameter) wrapped
in the envelope. -/
def getRandomTeams (sampled : List Team) : ListResponse Team :=
  ⟨true, sampled.length, sampled⟩

/-- `GET /api/games`: all games sorted by date descending. -/
def getGames (db : DB) : ListResponse Game :=
  let games := sortBy (fun a b => optStrLe b.date a.date) db.games
  ⟨true, games.length, games⟩

/-- `GET /api/games/latest`: games sorted by date descending, capped at
10. -/
def getLatestGames (db : DB) : ListResponse Game :=
  let games := (sortBy (fun a b => optStrLe b.date a.date) db.games).take 10
  ⟨true, games.length, games⟩

/-- `GET /api/games/date/:date`: games whose `dateFormatted` equals the
path parameter, sorted by date ascending. -/
def getGamesByDate (d : String) (db : DB) : ListResponse Game :=
  let games := sortBy (fun a b => optStrLe a.date b.date)
    (db.games.filter (fun g => g.dateFormatted == some d))
  ⟨true, games.length, games⟩

/- ---- spec-side notions used to state the claims ---- -/

/-- Spec-side: `q` is a case-insensitive prefix of `s`. -/
def startsWithCI : List Char → List Char → Bool
  | [], _ => true
  | _ :: _, [] => false
  | a :: qs, b :: ss => (a.toLower = b.toLower) && startsWithCI qs ss

/-- Spec-side: `q` is a case-insensitive substring of `s`. -/
def substrCI (q : List Char) : List Char → Bool
  | [] => startsWithCI q []
  | c :: cs => startsWithCI q (c :: cs) || substrCI q cs

/-- Spec-side: `q` is a case-insensitive substring of a present field. -/
def substrCIOpt (q : List Char) : Option String → Bool
  | some s => substrCI q s.data
  | none => false

/-- The regex metacharacters of the search query language; a query
avoiding all of them is a plain literal. -/
def regexMetachars : List Char :=
  ['.', '*', '+', '?', '[', ']', '(', ')', '\\', '^', '$', '\x7b', '\x7d', '|']

/-- Spec-side: the query contains no regex metacharacter. -/
def literalQuery (q : String) : Bool :=
  q.data.all (fun c => !(regexMetachars.contains c))

/-- Sum of the six per-division counts of a breakdown. -/
def TeamsBreakdown.total (b : TeamsBreakdown) : Nat :=
  b.atlantic + b.central + b.southeast + b.northwest + b.pacific + b.southwest

/-- A stored document with its timestamp erased, to compare collection
contents across runs at different clock times. -/
def Player.eraseTime (p : Player) : Player := { p with lastUpdated := 0 }

/-- A stored team with its timestamp erased. -/
def Team.eraseTime (t : Team) : Team := { t with lastUpdated := 0 }

/-- A stored game with its timestamp erased. -/
def Game.eraseTime (g : Game) : Game := { g with lastUpdated := 0 }

/- ==================== CONCRETE SAMPLE DATA (for closed instances) ===== -/

/-- A concrete stored player (pre-existing collection content). -/
def samplePlayer : Player :=
  { apiPlayerId := some "p0", name := some "Old Player", displayName := some "Old Player",
    shortName := none, team := some "Old Team", teamId := none, position := none,
    jersey := none, image := none, imageUrl := none,
    points := 12, assists := 3, rebounds := 4, lastUpdated := 0 }

/-- A concrete stored team (pre-existing collection content). -/
def sampleTeam : Team :=
  { apiTeamId := some "t0", name := some "Old Celtics", shortName := some "Celtics",
    abbrv := some "BOS", logo := none, logoDark := none, href := none,
    conference := some "East", division := some "Atlantic",
    wins := 0, losses := 0, lastUpdated := 0 }

/-- A concrete stored game (pre-existing collection content). -/
def sampleGame : Game :=
  { apiGameId := some "g0", date := some "2023-01-01", dateFormatted := some "20230101",
    status := some "Final",
    homeTeam := ⟨some "h", some "Home", some "HOM", none, 101⟩,
    awayTeam := ⟨some "a", some "Away", some "AWY", none, 99⟩,
    venue := some "Arena", lastUpdated := 0 }

/-- A concrete non-empty store, to exhibit frame conditions. -/
def seededDB : DB := ⟨[samplePlayer], [sampleTeam], [sampleGame]⟩

/-- A concrete upstream team record. -/
def sampleApiTeam : ApiTeam :=
  { id := some "1", name := some "Boston Celtics", shortName := some "Celtics",
    abbrv := some "BOS", logo := none, logoDark := none, href := none }

/-- A concrete division fixture: every endpoint succeeds with one team. -/
def allOkTeamsFixture : String → Except String TeamsPayload :=
  fun _ => .ok ⟨some [sampleApiTeam]⟩

/-- A concrete division fixture: the Atlantic endpoint fails, the other
five succeed with one team each. -/
def atlanticDownFixture : String → Except String TeamsPayload :=
  fun e => if e = "/nba-atlantic-team-list" then .error "division down"
           else .ok ⟨some [sampleApiTeam]⟩

/-- A concrete division fixture: every endpoint succeeds but with an
empty team list. -/
def emptyTeamsFixture : String → Except String TeamsPayload :=
  fun _ => .ok ⟨some []⟩

/-- A concrete upstream player record. -/
def sampleApiPlayer : ApiPlayer :=
  { id := some "23", name := some "LeBron James", displayName := some "LeBron James",
    shortName := some "L. James", team := some ⟨some "13", some "Lakers"⟩,
    position := some "F", jersey := some "23", image := none, headshot := none }

/-- A concrete players fixture: the primary endpoint succeeds. -/
def okPlayersFixture : String → Except String PlayersPayload :=
  fun _ => .ok ⟨some [sampleApiPlayer]⟩

/-- A concrete players fixture: both endpoints fail, with distinct
error messages. -/
def bothFailPlayersFixture : String → Except String PlayersPayload :=
  fun e => if e = "/players" then .error "primary down" else .error "fallback down"

/-- A concrete upstream player whose `name` is present but empty. -/
def emptyNameApiPlayer : ApiPlayer :=
  { id := some "6", name := some "", displayName := some "LeBron James",
    shortName := none, team := none, position := none, jersey := none,
    image := none, headshot := none }

/-- A concrete players fixture returning the empty-named player. -/
def emptyNameFixture : String → Except String PlayersPayload :=
  fun _ => .ok ⟨some [emptyNameApiPlayer]⟩

/-- A concrete games fixture: the primary endpoint succeeds with an
empty game list. -/
def emptyGamesFixture : String → Except String GamesPayload :=
  fun _ => .ok ⟨some []⟩

/-- A concrete games fixture: every endpoint fails. -/
def allFailGamesFixture : String → Except String GamesPayload :=
  fun _ => .error "no games endpoint"

/-- A concrete games fixture: primary fails, secondary succeeds. -/
def secondOkGamesFixture : String → Except String GamesPayload :=
  fun e => if e = "/games" then .error "g1" else .ok ⟨some []⟩

/-- A concrete games fixture: only the date-qualified endpoint
succeeds. -/
def thirdOkGamesFixture : String → Except String GamesPayload :=
  fun e => if e = "/games" then .error "g1"
           else if e = "/schedule" then .error "g2"
           else .ok ⟨some []⟩

/-- A concrete player stored under identifier `"a"`. -/
def storedPlayerA : Stored Player := ⟨"a", samplePlayer⟩

/-- A concrete team stored under identifier `"t"`. -/
def storedTeamT : Stored Team := ⟨"t", sampleTeam⟩

/-- A concrete stored player whose name has no lowercase-`'.'` anywhere,
used to exhibit the regex behaviour of search. -/
def searchPlayerX : Player :=
  { apiPlayerId := none, name := some "xyz", displayName := none,
    shortName := none, team := none, teamId := none, position := none,
    jersey := none, image := none, imageUrl := none,
    points := 0, assists := 0, rebounds := 0, lastUpdated := 0 }

/-- A concrete store holding only `searchPlayerX`. -/
def searchDB : DB := ⟨[searchPlayerX], [], []⟩

/-- A concrete stored player named `"LeBron James"`. -/
def lebronPlayer : Player :=
  { apiPlayerId := some "23", name := some "LeBron James",
    displayName := some "LeBron James", shortName := none, team := some "Lakers",
    teamId := none, position := none, jersey := none, image := none,
    imageUrl := none, points := 27, assists := 7, rebounds := 7, lastUpdated := 0 }

/-- A concrete store holding only `lebronPlayer`. -/
def bronDB : DB := ⟨[lebronPlayer], [], []⟩

/- ============================ CLAIM THEOREMS ========================== -/

/-- C1: if the games endpoint chain succeeds but the returned game list
is empty or missing, Refresh Games returns a success envelope with
count 0 and the store — in particular the Game collection — is left
exactly as it was (no clear, no insert). -/
theorem populateGames_emptyList_noop
    (fixture : String → Except String GamesPayload) (today : String) (now : Nat)
    (db : DB) (data : GamesPayload)
    (hok : (tryGamesEndpoints fixture today).2 = .ok data)
    (hempty : data.gameList = none ∨ data.gameList = some []) :
    populateGames fixture today now db =
      (db, ⟨200, true, "No games found", some 0, none⟩) := by
  unfold populateGames
  rw [hok]
  rcases hempty with h | h <;> simp [h]

/-- Witness for C1: an upstream returning an empty game list leaves a
seeded store untouched and reports success with count 0. -/
theorem populateGames_emptyList_noop_witness :
    populateGames emptyGamesFixture "2024-01-01" 7 seededDB =
      (seededDB, ⟨200, true, "No games found", some 0, none⟩) :=
  populateGames_emptyList_noop emptyGamesFixture "2024-01-01" 7 seededDB
    ⟨some []⟩ rfl (Or.inr rfl)

/-- C2: if both the primary `/players` endpoint and the single fallback
`/nba/players` endpoint fail, Refresh Players fails with the
endpoint-not-found envelope carrying the last underlying error's
message, and the store — in particular the Player collection — is left
unmodified. -/
theorem populatePlayers_bothFail
    (fixture : String → Except String PlayersPayload) (now : Nat) (db : DB)
    (e1 e2 : String)
    (h1 : fixture "/players" = .error e1)
    (h2 : fixture "/nba/players" = .error e2) :
    populatePlayers fixture now db =
      (db, ⟨404, false, "Players endpoint not found. Check API documentation.",
            none, some e2⟩) := by
  unfold populatePlayers tryPlayersEndpoints
  rw [h1, h2]

/-- Witness for C2: with both endpoints down, a seeded store keeps its
players and the envelope carries the fallback endpoint's error. -/
theorem populatePlayers_bothFail_witness :
    populatePlayers bothFailPlayersFixture 7 seededDB =
      (seededDB, ⟨404, false, "Players endpoint not found. Check API documentation.",
                  none, some "fallback down"⟩) :=
  populatePlayers_bothFail bothFailPlayersFixture 7 seededDB
    "primary down" "fallback down" rfl rfl

/-- C10: every list-shaped read route (list players, list teams, list
games, player search, top-10 players, random-10 teams, latest games,
games by date) returns an envelope whose `count` equals the length of
its `data` array. -/
theorem list_count_eq_data_length (db : DB) (q d : String) (sampled : List Team) :
    (getPlayers db).count = (getPlayers db).data.length ∧
    (getTeams db).count = (getTeams db).data.length ∧
    (getGames db).count = (getGames db).data.length ∧
    (searchPlayers q db).count = (searchPlayers q db).data.length ∧
    (getTopPlayers db).count = (getTopPlayers db).data.length ∧
    (getRandomTeams sampled).count = (getRandomTeams sampled).data.length ∧
    (getLatestGames db).count = (getLatestGames db).data.length ∧
    (getGamesByDate d db).count = (getGamesByDate d db).data.length :=
  ⟨rfl, rfl, rfl, rfl, rfl, rfl, rfl, rfl⟩

/-- C4: the games endpoint chain tries `/games`, then `/schedule`, then
`/games?date=<today>` in that fixed order, stopping at the first
success (no attempt is made after a success, as the recorded attempt
list shows); the operation fails if and only if all three attempts
fail, and then carries the third attempt's error message in a 404
envelope. -/
theorem populateGames_chain_order (fixture : String → Except String GamesPayload)
    (today : String) :
    (∀ d, fixture "/games" = .ok d →
      tryGamesEndpoints fixture today = (["/games"], .ok d)) ∧
    (∀ e1 d, fixture "/games" = .error e1 → fixture "/schedule" = .ok d →
      tryGamesEndpoints fixture today = (["/games", "/schedule"], .ok d)) ∧
    (∀ e1 e2 d, fixture "/games" = .error e1 → fixture "/schedule" = .error e2 →
      fixture ("/games?date=" ++ today) = .ok d →
      tryGamesEndpoints fixture today =
        (["/games", "/schedule", "/games?date=" ++ today], .ok d)) ∧
    (∀ e1 e2 e3, fixture "/games" = .error e1 → fixture "/schedule" = .error e2 →
      fixture ("/games?date=" ++ today) = .error e3 →
      tryGamesEndpoints fixture today =
        (["/games", "/schedule", "/games?date=" ++ today], .error e3) ∧
      ∀ now db, populateGames fixture today now db =
        (db, ⟨404, false, "Games endpoint not found. Check API documentation.",
              none, some e3⟩)) ∧
    (∀ now db, (populateGames fixture today now db).2.success = false →
      ∃ e1 e2 e3, fixture "/games" = .error e1 ∧ fixture "/schedule" = .error e2 ∧
        fixture ("/games?date=" ++ today) = .error e3) := by
  refine ⟨?_, ?_, ?_, ?_, ?_⟩
  · intro d h
    unfold tryGamesEndpoints
    rw [h]
  · intro e1 d h1 h2
    unfold tryGamesEndpoints
    rw [h1, h2]
  · intro e1 e2 d h1 h2 h3
    unfold tryGamesEndpoints
    rw [h1, h2, h3]
  · intro e1 e2 e3 h1 h2 h3
    constructor
    · unfold tryGamesEndpoints
      rw [h1, h2, h3]
    · intro now db
      unfold populateGames tryGamesEndpoints
      rw [h1, h2, h3]
  · intro now db hfail
    rcases hg : fixture "/games" with eg | dg
    · rcases hs : fixture "/schedule" with es | ds
      · rcases hq : fixture ("/games?date=" ++ today) with eq3 | dq
        · -- the case splits substituted the fetch results into the goal
          exact ⟨eg, es, eq3, rfl, rfl, rfl⟩
        · exfalso
          unfold populateGames tryGamesEndpoints at hfail
          rw [hg, hs, hq] at hfail
          rcases hl : dq.gameList with _ | l
          · simp [hl] at hfail
          · rcases Nat.eq_zero_or_pos l.length with h0 | h0
            · simp [hl, h0] at hfail
            · simp [hl, Nat.pos_iff_ne_zero.mp h0] at hfail
      · exfalso
        unfold populateGames tryGamesEndpoints at hfail
        rw [hg, hs] at hfail
        rcases hl : ds.gameList with _ | l
        · simp [hl] at hfail
        · rcases Nat.eq_zero_or_pos l.length with h0 | h0
          · simp [hl, h0] at hfail
          · simp [hl, Nat.pos_iff_ne_zero.mp h0] at hfail
    · exfalso
      unfold populateGames tryGamesEndpoints at hfail
      rw [hg] at hfail
      rcases hl : dg.gameList with _ | l
      · simp [hl] at hfail
      · rcases Nat.eq_zero_or_pos l.length with h0 | h0
        · simp [hl, h0] at hfail
        · simp [hl, Nat.pos_iff_ne_zero.mp h0] at hfail

/-- Witness for C4: concrete fixtures exercising each link of the
chain — first success stops the chain at each of the three positions,
total failure yields the 404 envelope carrying the third error, and a
failing run implies all three endpoints failed. -/
theorem populateGames_chain_order_witness :
    tryGamesEndpoints emptyGamesFixture "2024-01-01" = (["/games"], .ok ⟨some []⟩) ∧
    tryGamesEndpoints secondOkGamesFixture "2024-01-01" =
      (["/games", "/schedule"], .ok ⟨some []⟩) ∧
    tryGamesEndpoints thirdOkGamesFixture "2024-01-01" =
      (["/games", "/schedule", "/games?date=2024-01-01"], .ok ⟨some []⟩) ∧
    populateGames allFailGamesFixture "2024-01-01" 7 seededDB =
      (seededDB, ⟨404, false, "Games endpoint not found. Check API documentation.",
                  none, some "no games endpoint"⟩) ∧
    (∃ e1 e2 e3, allFailGamesFixture "/games" = .error e1 ∧
      allFailGamesFixture "/schedule" = .error e2 ∧
      allFailGamesFixture ("/games?date=" ++ "2024-01-01") = .error e3) := by
  refine ⟨?_, ?_, ?_, ?_, ?_⟩
  · exact (populateGames_chain_order emptyGamesFixture "2024-01-01").1 ⟨some []⟩ rfl
  · exact (populateGames_chain_order secondOkGamesFixture "2024-01-01").2.1
      "g1" ⟨some []⟩ rfl rfl
  · exact (populateGames_chain_order thirdOkGamesFixture "2024-01-01").2.2.1
      "g1" "g2" ⟨some []⟩ rfl rfl rfl
  · exact ((populateGames_chain_order allFailGamesFixture "2024-01-01").2.2.2.1
      "no games endpoint" "no games endpoint" "no games endpoint" rfl rfl rfl).2 7 seededDB
  · exact (populateGames_chain_order allFailGamesFixture "2024-01-01").2.2.2.2
      7 seededDB (by decide)

/-- C5: after the division loop, an empty accumulator makes Refresh
Teams fail with the no-data 404 envelope and leaves the store — in
particular the Team collection — untouched; a non-empty accumulator
makes it clear the Team collection and bulk-insert exactly the
normalized records, reporting success. -/
theorem populateTeams_empty_or_replace
    (fixture : String → Except String TeamsPayload) (now : Nat) (db : DB) :
    (collectTeams fixture = [] →
      populateTeams fixture now db =
        (db, ⟨404, false, "No teams found in API response", none, none⟩)) ∧
    (collectTeams fixture ≠ [] →
      (populateTeams fixture now db).1 =
        { db with teams := (collectTeams fixture).map (normalizeTeam now) } ∧
      (populateTeams fixture now db).2.success = true ∧
      (populateTeams fixture now db).2.status = 200) := by
  constructor
  · intro h
    unfold populateTeams
    simp [h]
  · intro h
    have hlen : ¬(collectTeams fixture).length = 0 := by
      simpa [List.length_eq_zero] using h
    unfold populateTeams
    simp [hlen]

/-- Witness for C5: all divisions succeeding with empty team lists
leaves a seeded store untouched with the no-data envelope, while the
all-ok fixture replaces the Team collection with the normalized
records and succeeds. -/
theorem populateTeams_empty_or_replace_witness :
    populateTeams emptyTeamsFixture 7 seededDB =
      (seededDB, ⟨404, false, "No teams found in API response", none, none⟩) ∧
    ((populateTeams allOkTeamsFixture 7 seededDB).1 =
      { seededDB with
        teams := (collectTeams allOkTeamsFixture).map (normalizeTeam 7) } ∧
     (populateTeams allOkTeamsFixture 7 seededDB).2.success = true ∧
     (populateTeams allOkTeamsFixture 7 seededDB).2.status = 200) :=
  ⟨(populateTeams_empty_or_replace emptyTeamsFixture 7 seededDB).1 (by decide),
   (populateTeams_empty_or_replace allOkTeamsFixture 7 seededDB).2 (by decide)⟩

/-- Counterexample for C6: the `lastUpdated` schema field defaults to
the insertion-time clock; running Refresh Players twice in a row over
the same deterministic upstream fixture, with the clock advancing from
0 to 1, leaves a different Player collection after the second run, so
the final contents are not a function of the upstream data alone. -/
theorem refresh_twice_differs_counterexample :
    (populatePlayers okPlayersFixture 1
        (populatePlayers okPlayersFixture 0 ⟨[], [], []⟩).1).1.players ≠
      (populatePlayers okPlayersFixture 0 ⟨[], [], []⟩).1.players := by
  decide

/-- C6 (amended): for every refresh operation and fixed deterministic
upstream fixture, running the operation twice in a row at the same
clock timestamp yields the same final collection contents, and runs at
any two timestamps yield collections that agree once the
`lastUpdated` timestamps are erased — i.e. clear-then-reinsert is a
deterministic function of the upstream data and the insertion-time
clock, and of the upstream data alone up to timestamps. -/
theorem refresh_deterministic_up_to_timestamp
    (tf : String → Except String TeamsPayload)
    (pf : String → Except String PlayersPayload)
    (gf : String → Except String GamesPayload)
    (today : String) (now n1 n2 : Nat) (db : DB) :
    (populateTeams tf now (populateTeams tf now db).1).1.teams =
      (populateTeams tf now db).1.teams ∧
    (populatePlayers pf now (populatePlayers pf now db).1).1.players =
      (populatePlayers pf now db).1.players ∧
    (populateGames gf today now (populateGames gf today now db).1).1.games =
      (populateGames gf today now db).1.games ∧
    (populateTeams tf n1 db).1.teams.map Team.eraseTime =
      (populateTeams tf n2 db).1.teams.map Team.eraseTime ∧
    (populatePlayers pf n1 db).1.players.map Player.eraseTime =
      (populatePlayers pf n2 db).1.players.map Player.eraseTime ∧
    (populateGames gf today n1 db).1.games.map Game.eraseTime =
      (populateGames gf today n2 db).1.games.map Game.eraseTime := by
  refine ⟨?_, ?_, ?_, ?_, ?_, ?_⟩
  · unfold populateTeams
    by_cases h : (collectTeams tf).length = 0 <;> simp [h]
  · unfold populatePlayers
    rcases htry : tryPlayersEndpoints pf with e | data
    · simp [htry]
    · rcases hl : data.playerList with _ | l
      · simp [htry, hl]
      · by_cases h : l = [] <;> simp [htry, hl, h]
  · unfold populateGames
    rcases htry : (tryGamesEndpoints gf today).2 with e | data
    · simp [htry]
    · rcases hl : data.gameList with _ | l
      · simp [htry, hl]
      · by_cases h : l = [] <;> simp [htry, hl, h]
  · unfold populateTeams
    by_cases h : (collectTeams tf).length = 0 <;>
      simp [h, List.map_map, Function.comp_def, Team.eraseTime, normalizeTeam]
  · unfold populatePlayers
    rcases htry : tryPlayersEndpoints pf with e | data
    · simp [htry]
    · rcases hl : data.playerList with _ | l
      · simp [htry, hl]
      · by_cases h : l = [] <;>
          simp [htry, hl, h, List.map_map, Function.comp_def,
            Player.eraseTime, normalizePlayer]
  · unfold populateGames
    rcases htry : (tryGamesEndpoints gf today).2 with e | data
    · simp [htry]
    · rcases hl : data.gameList with _ | l
      · simp [htry, hl]
      · by_cases h : l = [] <;>
          simp [htry, hl, h, List.map_map, Function.comp_def,
            Game.eraseTime, normalizeGame]

/-- Counterexample for C7: a player whose upstream `name` is present
but empty (`""`).  JavaScript `player.name || player.displayName` is a
truthiness fallback, so the inserted record's name is the display name
`"LeBron James"`, not the present upstream name `""` as the claim
requires. -/
theorem populatePlayers_presentName_counterexample :
    emptyNameApiPlayer.name = some "" ∧
    (populatePlayers emptyNameFixture 0 ⟨[], [], []⟩).1.players.map Player.name =
      [some "LeBron James"] := by
  decide

/-- C7 (amended): for every upstream player record processed by a
successful Refresh Players, the inserted record has points, assists and
rebounds zero; its name equals the upstream name when present and
non-empty, otherwise the upstream display name; and its team name
equals the upstream team name when present and non-empty, otherwise
the sentinel `"Free Agent"`. -/
theorem populatePlayers_normalization
    (fixture : String → Except String PlayersPayload) (now : Nat) (db : DB)
    (l : List ApiPlayer)
    (hok : tryPlayersEndpoints fixture = .ok ⟨some l⟩) (hne : l ≠ []) :
    (populatePlayers fixture now db).1.players = l.map (normalizePlayer now) ∧
    ∀ u ∈ l,
      (normalizePlayer now u).points = 0 ∧
      (normalizePlayer now u).assists = 0 ∧
      (normalizePlayer now u).rebounds = 0 ∧
      (normalizePlayer now u).name =
        (match u.name with
         | some s => if s = "" then u.displayName else some s
         | none => u.displayName) ∧
      (normalizePlayer now u).team =
        some (match u.team with
              | some tr =>
                (match tr.name with
                 | some s => if s = "" then "Free Agent" else s
                 | none => "Free Agent")
              | none => "Free Agent") := by
  constructor
  · unfold populatePlayers
    rw [hok]
    simp [hne]
  · intro u _
    refine ⟨rfl, rfl, rfl, ?_, ?_⟩
    · show jsOr u.name u.displayName = _
      unfold jsOr
      rcases u.name with _ | s <;> simp
    · show some (jsOrStr (u.team.bind ApiTeamRef.name) "Free Agent") = _
      unfold jsOrStr
      rcases u.team with _ | tr
      · simp
      · rcases htr : tr.name with _ | s <;> simp [htr]

/-- Witness for C7: a successful refresh over one concrete upstream
player inserts the normalized record and its stats are zero, the name
is the (non-empty) upstream name, and the team name is the (non-empty)
upstream team name. -/
theorem populatePlayers_normalization_witness :
    (populatePlayers okPlayersFixture 7 seededDB).1.players =
      [sampleApiPlayer].map (normalizePlayer 7) ∧
    (normalizePlayer 7 sampleApiPlayer).points = 0 ∧
    (normalizePlayer 7 sampleApiPlayer).assists = 0 ∧
    (normalizePlayer 7 sampleApiPlayer).rebounds = 0 ∧
    (normalizePlayer 7 sampleApiPlayer).name = some "LeBron James" ∧
    (normalizePlayer 7 sampleApiPlayer).team = some "Lakers" := by
  have h := populatePlayers_normalization okPlayersFixture 7 seededDB
    [sampleApiPlayer] rfl (by decide)
  have hu := h.2 sampleApiPlayer (by decide)
  exact ⟨h.1, hu.1, hu.2.1, hu.2.2.1, hu.2.2.2.1, hu.2.2.2.2⟩

/-- Helper: with store identifiers pairwise distinct, `findById`
returns exactly the stored record bearing the requested identifier. -/
theorem findById_of_mem {α : Type} (coll : List (Stored α)) (i : String)
    (hnodup : (coll.map Stored.sid).Nodup) (r : Stored α)
    (hr : r ∈ coll) (hi : r.sid = i) :
    findById coll i = some r := by
  induction coll with
  | nil => cases hr
  | cons a as ih =>
    rw [List.map_cons, List.nodup_cons] at hnodup
    rcases List.mem_cons.mp hr with rfl | hmem
    · simp [findById, List.find?_cons, hi]
    · by_cases ha : a.sid = i
      · exfalso
        apply hnodup.1
        rw [ha, ← hi]
        exact List.mem_map_of_mem Stored.sid hmem
      · have : findById as i = some r := ih hnodup.2 hmem
        simpa [findById, List.find?_cons, ha] using this

/-- Helper: if no stored record bears the requested identifier,
`findById` returns nothing. -/
theorem findById_of_absent {α : Type} (coll : List (Stored α)) (i : String)
    (habs : ∀ r ∈ coll, r.sid ≠ i) :
    findById coll i = none := by
  rw [findById, List.find?_eq_none]
  intro r hr
  simpa using habs r hr

/-- C8: for both get-by-id read routes (players and teams), an
identifier present in the store yields a success envelope containing
exactly the record stored under it (store identifiers being unique),
and an absent identifier yields the 404 not-found failure envelope. -/
theorem getById_found_or_404
    (pcoll : List (Stored Player)) (tcoll : List (Stored Team)) (i j : String)
    (hp : (pcoll.map Stored.sid).Nodup) (ht : (tcoll.map Stored.sid).Nodup) :
    (∀ r ∈ pcoll, r.sid = i →
      getPlayerById pcoll i = ⟨200, true, none, some r.doc⟩) ∧
    ((∀ r ∈ pcoll, r.sid ≠ i) →
      getPlayerById pcoll i = ⟨404, false, some "Player not found", none⟩) ∧
    (∀ r ∈ tcoll, r.sid = j →
      getTeamById tcoll j = ⟨200, true, none, some r.doc⟩) ∧
    ((∀ r ∈ tcoll, r.sid ≠ j) →
      getTeamById tcoll j = ⟨404, false, some "Team not found", none⟩) := by
  refine ⟨?_, ?_, ?_, ?_⟩
  · intro r hr hi
    unfold getPlayerById
    rw [findById_of_mem pcoll i hp r hr hi]
  · intro habs
    unfold getPlayerById
    rw [findById_of_absent pcoll i habs]
  · intro r hr hj
    unfold getTeamById
    rw [findById_of_mem tcoll j ht r hr hj]
  · intro habs
    unfold getTeamById
    rw [findById_of_absent tcoll j habs]

/-- Witness for C8: in singleton stores with unique identifiers, the
present identifiers return the stored player and team and an absent
identifier returns the 404 envelope. -/
theorem getById_found_or_404_witness :
    getPlayerById [storedPlayerA] "a" = ⟨200, true, none, some samplePlayer⟩ ∧
    getPlayerById [storedPlayerA] "zzz" =
      ⟨404, false, some "Player not found", none⟩ ∧
    getTeamById [storedTeamT] "t" = ⟨200, true, none, some sampleTeam⟩ ∧
    getTeamById [storedTeamT] "zzz" =
      ⟨404, false, some "Team not found", none⟩ := by
  have h1 := getById_found_or_404 [storedPlayerA] [storedTeamT] "a" "t"
    (by decide) (by decide)
  have h2 := getById_found_or_404 [storedPlayerA] [storedTeamT] "zzz" "zzz"
    (by decide) (by decide)
  exact ⟨h1.1 storedPlayerA (by decide) (by decide),
         h2.2.1 (by decide),
         h1.2.2.1 storedTeamT (by decide) (by decide),
         h2.2.2.2 (by decide)⟩

/-- Helper: on a metacharacter-free pattern, the anchored regex match
coincides with the case-insensitive prefix test. -/
theorem matchHere_eq_startsWithCI (q : List Char)
    (h : ∀ c ∈ q, c ∉ regexMetachars) :
    ∀ s, matchHere q s = startsWithCI q s := by
  induction q with
  | nil => intro s; cases s <;> rfl
  | cons a qs ih =>
    intro s
    cases s with
    | nil => rfl
    | cons b ss =>
      have ha : ¬a = '.' := by
        have hmem := h a (List.mem_cons_self a qs)
        simp [regexMetachars] at hmem
        exact hmem.1
      have hqs : ∀ c ∈ qs, c ∉ regexMetachars :=
        fun c hc => h c (List.mem_cons_of_mem a hc)
      simp [matchHere, startsWithCI, charCI, ha, ih hqs ss]

/-- Helper: on a metacharacter-free pattern, the unanchored regex
search coincides with the case-insensitive substring test. -/
theorem regexFind_eq_substrCI (q : List Char)
    (h : ∀ c ∈ q, c ∉ regexMetachars) :
    ∀ s, regexFind q s = substrCI q s := by
  intro s
  induction s with
  | nil => simp [regexFind, substrCI, matchHere_eq_startsWithCI q h]
  | cons c cs ih =>
    simp [regexFind, substrCI, matchHere_eq_startsWithCI q h, ih]

/-- Helper: the same, lifted to a possibly-absent document field. -/
theorem regexFindOpt_eq_substrCIOpt (q : List Char) (o : Option String)
    (h : ∀ c ∈ q, c ∉ regexMetachars) :
    regexFindOpt q o = substrCIOpt q o := by
  cases o <;> simp [regexFindOpt, substrCIOpt, regexFind_eq_substrCI q h]

/-- Counterexample for C9: the search route hands the raw query to the
store as a regular expression, so the query `"."` (a wildcard) returns
the player named `"xyz"`, yet `"."` is not a case-insensitive
substring of either of that record's name fields. -/
theorem searchPlayers_regex_counterexample :
    (searchPlayers "." searchDB).data = [searchPlayerX] ∧
    substrCIOpt ".".data searchPlayerX.name = false ∧
    substrCIOpt ".".data searchPlayerX.displayName = false := by
  decide

/-- C9 (amended): for every query string free of regex metacharacters,
every record returned by the player search has the query as a
case-insensitive substring of its name or of its display name (so
searching `"bron"` matches a record named `"LeBron James"`), and at
most 10 records are returned for any query. -/
theorem searchPlayers_literal_matches (q : String) (db : DB)
    (hq : literalQuery q = true) :
    (∀ p ∈ (searchPlayers q db).data,
      substrCIOpt q.data p.name = true ∨ substrCIOpt q.data p.displayName = true) ∧
    (searchPlayers q db).data.length ≤ 10 := by
  have hmeta : ∀ c ∈ q.data, c ∉ regexMetachars := by
    intro c hc
    have := (List.all_eq_true.mp hq) c hc
    simpa using this
  constructor
  · intro p hp
    have hp2 : p ∈ db.players.filter
        (fun p => regexFindOpt q.data p.name || regexFindOpt q.data p.displayName) :=
      List.mem_of_mem_take hp
    have hpred := List.of_mem_filter hp2
    rw [regexFindOpt_eq_substrCIOpt q.data p.name hmeta,
        regexFindOpt_eq_substrCIOpt q.data p.displayName hmeta] at hpred
    simpa using hpred
  · have : (searchPlayers q db).data.length =
        ((db.players.filter
          (fun p => regexFindOpt q.data p.name || regexFindOpt q.data p.displayName)).take
            10).length := rfl
    rw [this]
    exact List.length_take_le 10 _

/-- Witness for C9: `"bron"` is metacharacter-free, the search over a
store holding `"LeBron James"` returns exactly that record, and the
returned records carry the query as a case-insensitive substring with
at most 10 results. -/
theorem searchPlayers_literal_matches_witness :
    literalQuery "bron" = true ∧
    (searchPlayers "bron" bronDB).data = [lebronPlayer] ∧
    ((∀ p ∈ (searchPlayers "bron" bronDB).data,
        substrCIOpt "bron".data p.name = true ∨
        substrCIOpt "bron".data p.displayName = true) ∧
      (searchPlayers "bron" bronDB).data.length ≤ 10) :=
  ⟨by decide, by decide, searchPlayers_literal_matches "bron" bronDB (by decide)⟩

/-- Helper: a division whose endpoint succeeds with a non-empty list
contributes its tagged teams. -/
theorem divFetch_ok (fixture : String → Except String TeamsPayload)
    (d : Division) (l : List ApiTeam)
    (h : fixture d.endpoint = .ok ⟨some l⟩) (hne : 0 < l.length) :
    divFetch fixture d =
      l.map (fun t => (⟨t, d.name, d.conference⟩ : TaggedTeam)) := by
  unfold divFetch
  rw [h]
  simp [hne]

/-- Helper: a division whose endpoint fails contributes nothing (the
loop logs and continues). -/
theorem divFetch_error (fixture : String → Except String TeamsPayload)
    (d : Division) (e : String) (h : fixture d.endpoint = .error e) :
    divFetch fixture d = [] := by
  unfold divFetch
  rw [h]

/-- Helper: on a non-empty accumulator, populate-teams replaces the
Team collection with the normalized accumulator and answers a success
envelope whose breakdown consists of the per-division filter counts. -/
theorem populateTeams_success_shape (fixture : String → Except String TeamsPayload)
    (now : Nat) (db : DB) (h : ¬(collectTeams fixture).length = 0) :
    (populateTeams fixture now db).1.teams =
      (collectTeams fixture).map (normalizeTeam now) ∧
    (populateTeams fixture now db).2.success = true ∧
    (populateTeams fixture now db).2.breakdown =
      some ⟨((collectTeams fixture).filter (fun t => t.divisionName = "Atlantic")).length,
            ((collectTeams fixture).filter (fun t => t.divisionName = "Central")).length,
            ((collectTeams fixture).filter (fun t => t.divisionName = "Southeast")).length,
            ((collectTeams fixture).filter (fun t => t.divisionName = "Northwest")).length,
            ((collectTeams fixture).filter (fun t => t.divisionName = "Pacific")).length,
            ((collectTeams fixture).filter (fun t => t.divisionName = "Southwest")).length⟩ := by
  unfold populateTeams
  simp [h]

/-- Helper: a division whose endpoint succeeds without a `teamList`
contributes nothing. -/
theorem divFetch_noList (fixture : String → Except String TeamsPayload)
    (d : Division) (h : fixture d.endpoint = .ok ⟨none⟩) :
    divFetch fixture d = [] := by
  unfold divFetch
  rw [h]

/-- Helper: a division whose endpoint succeeds with an empty `teamList`
contributes nothing. -/
theorem divFetch_emptyList (fixture : String → Except String TeamsPayload)
    (d : Division) (h : fixture d.endpoint = .ok ⟨some []⟩) :
    divFetch fixture d = [] := by
  unfold divFetch
  rw [h]
  simp

/-- Helper: every accumulated team is tagged with one of the six fixed
division names. -/
theorem collectTeams_names (fixture : String → Except String TeamsPayload)
    (t : TaggedTeam) (ht : t ∈ collectTeams fixture) :
    t.divisionName = "Atlantic" ∨ t.divisionName = "Central" ∨
    t.divisionName = "Southeast" ∨ t.divisionName = "Northwest" ∨
    t.divisionName = "Pacific" ∨ t.divisionName = "Southwest" := by
  unfold collectTeams at ht
  rw [List.mem_flatten] at ht
  obtain ⟨l, hl, htl⟩ := ht
  rw [List.mem_map] at hl
  obtain ⟨d, hd, rfl⟩ := hl
  have hname : t.divisionName = d.name := by
    rcases hfd : fixture d.endpoint with e | data
    · rw [divFetch_error fixture d e hfd] at htl
      cases htl
    · obtain ⟨tl⟩ := data
      rcases tl with _ | ls
      · rw [divFetch_noList fixture d hfd] at htl
        cases htl
      · rcases ls with _ | ⟨a, as⟩
        · rw [divFetch_emptyList fixture d hfd] at htl
          cases htl
        · rw [divFetch_ok fixture d (a :: as) hfd (by simp)] at htl
          rw [List.mem_map] at htl
          obtain ⟨x, _, rfl⟩ := htl
          rfl
  rw [hname]
  simp [divisions] at hd
  rcases hd with rfl | rfl | rfl | rfl | rfl | rfl <;> simp

/-- Helper: when every accumulated team carries one of the six division
names, the six per-division filter counts sum to the accumulator's
size. -/
theorem breakdown_filters_sum (l : List TaggedTeam)
    (h : ∀ t ∈ l, t.divisionName = "Atlantic" ∨ t.divisionName = "Central" ∨
      t.divisionName = "Southeast" ∨ t.divisionName = "Northwest" ∨
      t.divisionName = "Pacific" ∨ t.divisionName = "Southwest") :
    (l.filter (fun t => t.divisionName = "Atlantic")).length +
    (l.filter (fun t => t.divisionName = "Central")).length +
    (l.filter (fun t => t.divisionName = "Southeast")).length +
    (l.filter (fun t => t.divisionName = "Northwest")).length +
    (l.filter (fun t => t.divisionName = "Pacific")).length +
    (l.filter (fun t => t.divisionName = "Southwest")).length = l.length := by
  induction l with
  | nil => rfl
  | cons a as ih =>
    have has : ∀ t ∈ as, t.divisionName = "Atlantic" ∨ t.divisionName = "Central" ∨
        t.divisionName = "Southeast" ∨ t.divisionName = "Northwest" ∨
        t.divisionName = "Pacific" ∨ t.divisionName = "Southwest" :=
      fun t htm => h t (List.mem_cons_of_mem a htm)
    have ihs := ih has
    have ha := h a (List.mem_cons_self a as)
    rcases ha with ha | ha | ha | ha | ha | ha <;>
      · simp only [List.filter_cons, ha, List.length_cons]
        simp
        omega

/-- C3: when all 6 division endpoints succeed with k teams each
(k > 0), Refresh Teams replaces the collection with exactly the 6k
normalized records, each tagged with the conference and division of the
endpoint it came from, and the per-division breakdown sums to 6k; when
exactly one division endpoint fails, the operation still succeeds and
the collection contains the other 5 divisions' records. -/
theorem populateTeams_six_divisions
    (fixture : String → Except String TeamsPayload)
    (ts : Division → List ApiTeam) (k now : Nat) (db : DB) :
    ((∀ d ∈ divisions, fixture d.endpoint = .ok ⟨some (ts d)⟩ ∧ (ts d).length = k) →
      0 < k →
      (populateTeams fixture now db).1.teams =
        (divisions.map (fun d => (ts d).map
          (fun t => normalizeTeam now ⟨t, d.name, d.conference⟩))).flatten ∧
      (populateTeams fixture now db).1.teams.length = 6 * k ∧
      (populateTeams fixture now db).2.success = true ∧
      (∃ b, (populateTeams fixture now db).2.breakdown = some b ∧ b.total = 6 * k)) ∧
    (∀ d0 ∈ divisions, ∀ e, fixture d0.endpoint = .error e →
      (∀ d ∈ divisions, d ≠ d0 →
        fixture d.endpoint = .ok ⟨some (ts d)⟩ ∧ (ts d).length = k) →
      0 < k →
      (populateTeams fixture now db).2.success = true ∧
      (populateTeams fixture now db).1.teams =
        (divisions.map (fun d => if d = d0 then [] else (ts d).map
          (fun t => normalizeTeam now ⟨t, d.name, d.conference⟩))).flatten ∧
      (∀ d ∈ divisions, d ≠ d0 → ∀ t ∈ ts d,
        normalizeTeam now ⟨t, d.name, d.conference⟩ ∈
          (populateTeams fixture now db).1.teams)) := by
  constructor
  · intro hall hk0
    have hcol : collectTeams fixture =
        (divisions.map (fun d => (ts d).map
          (fun t => (⟨t, d.name, d.conference⟩ : TaggedTeam)))).flatten := by
      unfold collectTeams
      congr 1
      apply List.map_congr_left
      intro d hd
      exact divFetch_ok fixture d (ts d) (hall d hd).1
        (by rw [(hall d hd).2]; exact hk0)
    have hlen : (collectTeams fixture).length = 6 * k := by
      rw [hcol, List.length_flatten, List.map_map]
      have hmapk : divisions.map (List.length ∘ fun d => (ts d).map
          (fun t => (⟨t, d.name, d.conference⟩ : TaggedTeam))) =
          divisions.map (fun _ => k) := by
        apply List.map_congr_left
        intro d hd
        simp [(hall d hd).2]
      rw [hmapk]
      simp only [divisions, List.map_cons, List.map_nil, List.sum_cons, List.sum_nil]
      omega
    have hne : ¬(collectTeams fixture).length = 0 := by
      rw [hlen]; omega
    obtain ⟨hteams, hsucc, hbd⟩ := populateTeams_success_shape fixture now db hne
    refine ⟨?_, ?_, hsucc, ?_⟩
    · rw [hteams, hcol]
      simp [List.map_flatten, List.map_map, Function.comp_def]
    · rw [hteams, List.length_map, hlen]
    · refine ⟨_, hbd, ?_⟩
      unfold TeamsBreakdown.total
      rw [breakdown_filters_sum (collectTeams fixture)
        (fun t htm => collectTeams_names fixture t htm), hlen]
  · intro d0 hd0 e he hrest hk0
    have hcol : collectTeams fixture =
        (divisions.map (fun d => if d = d0 then [] else (ts d).map
          (fun t => (⟨t, d.name, d.conference⟩ : TaggedTeam)))).flatten := by
      unfold collectTeams
      congr 1
      apply List.map_congr_left
      intro d hd
      by_cases hdd : d = d0
      · subst hdd
        simp [divFetch_error fixture d e he]
      · rw [if_neg hdd]
        exact divFetch_ok fixture d (ts d) (hrest d hd hdd).1
          (by rw [(hrest d hd hdd).2]; exact hk0)
    obtain ⟨d1, hd1, hne1⟩ : ∃ d1 ∈ divisions, d1 ≠ d0 := by
      by_cases hat : d0 = ⟨"Atlantic", "/nba-atlantic-team-list", "East"⟩
      · refine ⟨⟨"Central", "/nba-central-team-list", "East"⟩, by simp [divisions], ?_⟩
        rw [hat]
        decide
      · exact ⟨⟨"Atlantic", "/nba-atlantic-team-list", "East"⟩, by simp [divisions],
          fun hh => hat hh.symm⟩
    have hmem : ∀ d ∈ divisions, d ≠ d0 → ∀ t ∈ ts d,
        (⟨t, d.name, d.conference⟩ : TaggedTeam) ∈ collectTeams fixture := by
      intro d hd hdd t htm
      rw [hcol, List.mem_flatten]
      refine ⟨(ts d).map (fun t => (⟨t, d.name, d.conference⟩ : TaggedTeam)), ?_,
        List.mem_map_of_mem _ htm⟩
      rw [List.mem_map]
      refine ⟨d, hd, ?_⟩
      rw [if_neg hdd]
    have hne : ¬(collectTeams fixture).length = 0 := by
      rw [List.length_eq_zero]
      intro hnil
      obtain ⟨t, htm⟩ : ∃ t, t ∈ ts d1 := by
        rcases hts : ts d1 with _ | ⟨a, as⟩
        · exfalso
          have hkd := (hrest d1 hd1 hne1).2
          rw [hts] at hkd
          simp at hkd
          omega
        · exact ⟨a, List.mem_cons_self a as⟩
      have hin := hmem d1 hd1 hne1 t htm
      rw [hnil] at hin
      cases hin
    obtain ⟨hteams, hsucc, _⟩ := populateTeams_success_shape fixture now db hne
    refine ⟨hsucc, ?_, ?_⟩
    · rw [hteams, hcol]
      simp [List.map_flatten, List.map_map, Function.comp_def,
        apply_ite (List.map (normalizeTeam now))]
    · intro d hd hdd t htm
      rw [hteams]
      exact List.mem_map_of_mem _ (hmem d hd hdd t htm)

/-- Witness for C3: with every division endpoint returning one team,
the collection gets 6 records, succeeds, and the breakdown sums to 6;
with the Atlantic endpoint down, the refresh still succeeds and the
collection contains the Central division's normalized record. -/
theorem populateTeams_six_divisions_witness :
    (populateTeams allOkTeamsFixture 7 seededDB).1.teams.length = 6 * 1 ∧
    (populateTeams allOkTeamsFixture 7 seededDB).2.success = true ∧
    (∃ b, (populateTeams allOkTeamsFixture 7 seededDB).2.breakdown = some b ∧
      b.total = 6 * 1) ∧
    (populateTeams atlanticDownFixture 7 seededDB).2.success = true ∧
    normalizeTeam 7 ⟨sampleApiTeam, "Central", "East"⟩ ∈
      (populateTeams atlanticDownFixture 7 seededDB).1.teams := by
  have hA := (populateTeams_six_divisions allOkTeamsFixture
    (fun _ => [sampleApiTeam]) 1 7 seededDB).1
    (fun d _ => ⟨rfl, rfl⟩) (by decide)
  have hB := (populateTeams_six_divisions atlanticDownFixture
    (fun _ => [sampleApiTeam]) 1 7 seededDB).2
    ⟨"Atlantic", "/nba-atlantic-team-list", "East"⟩ (by simp [divisions])
    "division down" (by simp [atlanticDownFixture])
    (by
      intro d hd hdd
      simp [divisions] at hd
      rcases hd with rfl | rfl | rfl | rfl | rfl | rfl
      · exact absurd rfl hdd
      all_goals exact ⟨by simp [atlanticDownFixture], rfl⟩)
    (by decide)
  exact ⟨hA.2.1, hA.2.2.1, hA.2.2.2, hB.1,
    hB.2.2 ⟨"Central", "/nba-central-team-list", "East"⟩ (by simp [divisions])
      (by decide) sampleApiTeam (List.mem_cons_self _ _)⟩
